import Mathlib

/-!
Shallow embedding of the MTG deck legality checker and sheet plotter
(src/checker.py, src/plotter.py).  Network fetches are modelled by a
deterministic oracle `String → Except String CardMetadata`: `.ok` is a
successful JSON response, `.error e` a transport/parse exception whose
string form is `e`.  The asyncio fan-out of `check_all_cards` resumes the
per-card tasks in deck order under equal fetch latencies, so it is
embedded as in-order sequential execution over `maindeck ++ sidedeck`.
-/

namespace MTG

/-- Python `str.replace(c, repl)` for one-character arguments, over the
underlying character list. -/
def replaceChar (c repl : Char) (s : String) : String :=
  String.mk (s.data.map fun d => if d = c then repl else d)

/-- An apostrophe character, kept out of string literals. -/
def apos : String := (Char.ofNat 39).toString

/-- `CardEntry`: one deck line, a dict with keys cardname and quantity. -/
structure CardEntry where
  cardname : String
  quantity : Nat
deriving Repr, DecidableEq

/-- `Deck`: the dict with keys maindeck and sidedeck. -/
structure Deck where
  maindeck : List CardEntry
  sidedeck : List CardEntry
deriving Repr, DecidableEq

/-- Catalog metadata used by the checker: `legalities` is the JSON
sub-object as an association list (a missing `legalities` key and a
missing format key both appear as a failed lookup), `type_line` the
optional `type_line` field. -/
structure CardMetadata where
  legalities : List (String × String)
  type_line : Option String
deriving Repr, DecidableEq

/-- `card_data.get` with default `""` for the type line. -/
def typeLine (m : CardMetadata) : String := m.type_line.getD ""

/-- Python `s.startswith(pat)`, over the underlying character lists. -/
def startsWithB (s pat : String) : Bool := pat.data.isPrefixOf s.data

/-- `DeckChecker.UNLIMITED_CARDS`. -/
def UNLIMITED_CARDS : List String :=
  ["Persistent Petitioners", "Rat Colony", "Relentless Rats",
   "Shadowborn Apostle", "Dragon" ++ apos ++ "s Approach"]

/-- `DeckChecker.SPECIAL_LIMIT_CARDS`. -/
def SPECIAL_LIMIT_CARDS : List (String × Nat) := [("Seven Dwarves", 7)]

/-! Message templates, verbatim from the f-strings in src/checker.py. -/

/-- f-string of checker.py line 29. -/
def commanderMainMsg (mc : Nat) : String := s!"Commander deck has {mc}/99 cards"

/-- f-string of checker.py line 31. -/
def commanderSideMsg (sc : Nat) : String := s!"Has {sc} commanders (needs 1)"

/-- f-string of checker.py line 34. -/
def mainSizeMsg (mc : Nat) : String := s!"Maindeck has {mc}/60 cards"

/-- f-string of checker.py line 36. -/
def sideSizeMsg (sc : Nat) : String := s!"Sideboard has {sc}/15 cards"

/-- f-string of checker.py line 48. -/
def errorMsg (name e : String) : String := s!"Error checking {name}: {e}"

/-- f-string of checker.py line 60. -/
def legalityMsg (name status fmt : String) : String := s!"{name} is {status} in {fmt}"

/-- f-string of checker.py lines 65 and 69. -/
def tooManyMsg (name : String) (limit : Nat) : String := s!"Too many {name} (max {limit})"

/-- Sum of the quantity fields of one pool. -/
def poolCount (pool : List CardEntry) : Nat :=
  (pool.map CardEntry.quantity).sum

/-- `DeckChecker.check_deck_size` (src/checker.py lines 22-36): the list
of reasons it appends, in append order. -/
def check_deck_size (fmt : String) (deck : Deck) : List String :=
  let main_count := poolCount deck.maindeck
  let side_count := poolCount deck.sidedeck
  if fmt = "commander" then
    (if main_count ≠ 99 then [commanderMainMsg main_count] else []) ++
    (if side_count ≠ 1 then [commanderSideMsg side_count] else [])
  else
    (if main_count < 60 then [mainSizeMsg main_count] else []) ++
    (if side_count > 15 then [sideSizeMsg side_count] else [])

/-- The oracle standing for one `session.get` of the fuzzy-named card
endpoint plus JSON decoding. -/
abbrev FetchOracle := String → Except String CardMetadata

/-- `DeckChecker._fetch_card_data` (lines 38-49): on success no reason
and the metadata; on any exception `e` the synthetic reason
`Error checking {name}: {e}` and the empty dict, modelled as `none`. -/
def fetch_card_data (oracle : FetchOracle) (card_name : String) :
    List String × Option CardMetadata :=
  match oracle card_name with
  | .ok m => ([], some m)
  | .error e => ([errorMsg card_name e], none)

/-- The format-legality block of `DeckChecker._check_card` (lines 57-60).
Python truthiness: the status expression treats both `None` and the
empty string as falsy, giving "not found". -/
def legality_reasons (fmt card_name : String) (m : CardMetadata) : List String :=
  let legality := m.legalities.lookup fmt
  if legality ≠ some "legal" then
    let status :=
      match legality with
      | some l => if l ≠ "" then replaceChar (Char.ofNat 95) (Char.ofNat 32) l else "not found"
      | none => "not found"
    [legalityMsg card_name status fmt]
  else []

/-- The quantity-limit block of `DeckChecker._check_card` (lines 62-69). -/
def quantity_reasons (card_name : String) (quantity : Nat) (m : CardMetadata) :
    List String :=
  match SPECIAL_LIMIT_CARDS.lookup card_name with
  | some limit =>
    if quantity > limit then [tooManyMsg card_name limit] else []
  | none =>
    if ¬ UNLIMITED_CARDS.contains card_name
        ∧ ¬ startsWithB (typeLine m) "Basic"
        ∧ quantity > 4 then
      [tooManyMsg card_name 4]
    else []

/-- `DeckChecker._check_card` (lines 51-69): the reasons one card check
appends, in append order.  An empty metadata dict reaches `_check_card`
only from the error branch of `_fetch_card_data` (a successful catalog
response is never the empty object), so `none` is exactly that case. -/
def check_card (oracle : FetchOracle) (fmt : String) (entry : CardEntry) :
    List String :=
  let fetched := fetch_card_data oracle entry.cardname
  match fetched.2 with
  | none => fetched.1
  | some m =>
    fetched.1 ++ legality_reasons fmt entry.cardname m
      ++ quantity_reasons entry.cardname entry.quantity m

/-- `DeckChecker.check_all_cards` (lines 71-76): one task per entry of
`maindeck + sidedeck`, appends collected in task order. -/
def check_all_cards (oracle : FetchOracle) (fmt : String) (deck : Deck) :
    List String :=
  ((deck.maindeck ++ deck.sidedeck).map (check_card oracle fmt)).flatten

/-- `DeckChecker.run_checks` (lines 78-82). -/
def run_checks (oracle : FetchOracle) (fmt : String) (deck : Deck) : String :=
  let reasons := check_deck_size fmt deck ++ check_all_cards oracle fmt deck
  if reasons.isEmpty then s!"Legal in {fmt}" else String.intercalate "\n" reasons

/-! ## Sheet plotter (src/plotter.py) -/

/-- `PPI = 300` (src/plotter.py line 9). -/
def PPI : ℚ := 300

/-- `MTG_CARD_SIZE = (int(2.5 * PPI), int(3.5 * PPI))` (line 10); both
float products are exact (`750.0` and `1050.0`), so Python `int` yields
exactly these values — the derivation is proved in the layout theorem. -/
def MTG_CARD_SIZE : ℤ × ℤ := (750, 1050)

/-- `cards_per_row = (width - 100) // (MTG_CARD_SIZE[0] + gap)` (line 35);
`Int.fdiv` is Python floor division. -/
def cards_per_row (width gap : ℤ) : ℤ := (width - 100).fdiv (MTG_CARD_SIZE.1 + gap)

/-- `cards_per_col = (height - 100) // (MTG_CARD_SIZE[1] + gap)` (line 36). -/
def cards_per_col (height gap : ℤ) : ℤ := (height - 100).fdiv (MTG_CARD_SIZE.2 + gap)

/-- `max_cards = cards_per_row * cards_per_col` (line 38). -/
def max_cards (width height gap : ℤ) : ℤ :=
  cards_per_row width gap * cards_per_col height gap

/-- Python exception text for integer division by zero. -/
def ZDIV_ERR : String := "ZeroDivisionError: integer division or modulo by zero"

/-- The paste coordinates of lines 68-69:
`x = 50 + (card_count // cards_per_row) * (MTG_CARD_SIZE[0] + gap)` and
`y = 50 + (card_count % cards_per_row) * (MTG_CARD_SIZE[1] + gap)`;
`Int.fdiv`/`Int.fmod` are Python `//` and `%`, which raise
`ZeroDivisionError` on a zero divisor. -/
def placementCoord (count cpr gap : ℤ) : Except String (ℤ × ℤ) :=
  if cpr = 0 then Except.error ZDIV_ERR
  else Except.ok (50 + count.fdiv cpr * (MTG_CARD_SIZE.1 + gap),
                  50 + count.fmod cpr * (MTG_CARD_SIZE.2 + gap))

/-- The page-file f-string of lines 74 and 84. -/
def pageName (deck_name : String) (page : Nat) : String := s!"{deck_name}_{page}.png"

/-- The pagination state of `plot_deck_async`: `card_count` counts images
pasted on the current canvas (a fresh canvas has zero), `page_count`
starts at 1, `saved` records flushed page file names in save order. -/
structure PlotState where
  card_count : Nat
  page_count : Nat
  saved : List String
deriving Repr, DecidableEq

/-- The state at line 41-43: counter zero, page number 1, nothing saved. -/
def freshState : PlotState := { card_count := 0, page_count := 1, saved := [] }

/-- One pass of the inner placement body (lines 66-78): paste, increment
the counter, and when it reaches `max_cards` save the page under
the current page number, bump the page number, reset the counter and
replace the canvas by a fresh one. -/
def placeOne (deck_name : String) (maxCards : Nat) (s : PlotState) : PlotState :=
  let cc := s.card_count + 1
  if cc = maxCards then
    { card_count := 0, page_count := s.page_count + 1,
      saved := s.saved ++ [pageName deck_name s.page_count] }
  else { s with card_count := cc }

/-- `n` consecutive placements. -/
def placeMany (deck_name : String) (maxCards : Nat) : Nat → PlotState → PlotState
  | 0, s => s
  | n + 1, s => placeOne deck_name maxCards (placeMany deck_name maxCards n s)

/-- The trailing flush of lines 83-84: save the final canvas iff it holds
more than one placed image. -/
def finalFlush (deck_name : String) (s : PlotState) : PlotState :=
  if s.card_count > 1 then { s with saved := s.saved ++ [pageName deck_name s.page_count] }
  else s

/-- The whole pagination behaviour of a run placing `n` images. -/
def plotPages (deck_name : String) (maxCards n : Nat) : PlotState :=
  finalFlush deck_name (placeMany deck_name maxCards n freshState)

/-! ## Price accumulation (src/plotter.py lines 46-63, 86) -/

/-- The plotter-relevant slice of one fetched card object: `type_line`
(absent key modelled as `none`) and `prices.usd` (`none` when the JSON
carries no usd price).  Image URLs are irrelevant to the price path and
are abstracted away. -/
structure PlotCard where
  type_line : Option String
  usd : Option String
deriving Repr, DecidableEq

/-- Value of a digit run, most significant first. -/
def digitsToNat (cs : List Char) : Nat :=
  cs.foldl (fun acc c => 10 * acc + (c.toNat - 48)) 0

/-- All characters are decimal digits. -/
def allDigits (cs : List Char) : Bool := cs.all Char.isDigit

/-- Split at the first dot, if any. -/
def splitAtDot : List Char → List Char × Option (List Char)
  | [] => ([], none)
  | c :: cs =>
    if c = '.' then ([], some cs)
    else
      let r := splitAtDot cs
      (c :: r.1, r.2)

/-- Python `float(s)` on the nonnegative plain decimal strings the
catalog emits for prices (`"1.50"`, `"0.25"`, `"12"`); `none` models the
`ValueError` raised on anything else. -/
def pyFloat (s : String) : Option ℚ :=
  let p := splitAtDot s.data
  match p.2 with
  | none =>
    if p.1 ≠ [] ∧ allDigits p.1 then some (digitsToNat p.1 : ℚ) else none
  | some frac =>
    if (p.1 ≠ [] ∨ frac ≠ []) ∧ allDigits p.1 ∧ allDigits frac then
      some ((digitsToNat p.1 : ℚ) + (digitsToNat frac : ℚ) / (10 : ℚ) ^ frac.length)
    else none

/-- Python message of multiplying None by an int. -/
def TYPE_ERR : String :=
  "TypeError: unsupported operand type(s) for *: " ++ apos ++ "NoneType" ++ apos
    ++ " and " ++ apos ++ "int" ++ apos

/-- Python message of a failed string-to-float conversion. -/
def VALUE_ERR (s : String) : String :=
  "ValueError: could not convert string to float: " ++ apos ++ s ++ apos

/-- Bool of: `pat` occurs as a contiguous substring (Python `in`). -/
def infixOfB (pat : List Char) : List Char → Bool
  | [] => pat.isEmpty
  | c :: rest => pat.isPrefixOf (c :: rest) || infixOfB pat rest

/-- One loop body of `plot_deck_async` restricted to its price effects
(lines 46-63): the walrus `if price := ...` adds `float(price) * quantity`
when the usd string is truthy (present and nonempty); the basic-land
`continue` (line 53) skips the rest of the body; otherwise the debug
print of line 62 evaluates `price * quantity`, which raises `TypeError`
when the price is `None`.  The image-URL extraction and fetching between
the skip and the prints are abstracted: they never touch the price. -/
def entryPriceStep (basic : Bool) (card : PlotCard) (quantity : Nat) (total : ℚ) :
    Except String ℚ :=
  let priceAdded : Except String ℚ :=
    match card.usd with
    | some p =>
      if p ≠ "" then
        match pyFloat p with
        | some v => Except.ok (total + v * (quantity : ℚ))
        | none => Except.error (VALUE_ERR p)
      else Except.ok total
    | none => Except.ok total
  match priceAdded with
  | Except.error e => Except.error e
  | Except.ok t =>
    if ¬ basic ∧ infixOfB "Basic Land".data ((card.type_line.getD "").data) then Except.ok t
    else
      match card.usd with
      | none => Except.error TYPE_ERR
      | some _ => Except.ok t

/-- The price-relevant loop of line 45 over `maindeck + sidedeck`. -/
def plotPriceRun (oracle : String → PlotCard) (basic : Bool) :
    List CardEntry → ℚ → Except String ℚ
  | [], total => Except.ok total
  | e :: rest, total =>
    match entryPriceStep basic (oracle e.cardname) e.quantity total with
    | Except.error msg => Except.error msg
    | Except.ok t => plotPriceRun oracle basic rest t

/-- `round(x, 2)` (line 86) on the exact rational total. -/
def round2 (q : ℚ) : ℚ := (round (q * 100) : ℚ) / 100

/-- The total-price result of `plot_deck_async`: the accumulated running
total rounded to 2 decimals, or the exception aborting the render. -/
def plot_deck_price (oracle : String → PlotCard) (basic : Bool) (deck : Deck) :
    Except String ℚ :=
  match plotPriceRun oracle basic (deck.maindeck ++ deck.sidedeck) 0 with
  | Except.ok t => Except.ok (round2 t)
  | Except.error e => Except.error e

/-! ## Specification-side definitions, written from the claims' wording,
to be compared with the source embeddings above. -/

/-- The quantity rule as the specification words it: a named special
limit first, then the unlimited allowlist, then basic lands, then the
default maximum of 4. -/
def quantity_spec (card_name : String) (quantity : Nat) (m : CardMetadata) : List String :=
  if card_name = "Seven Dwarves" then
    if quantity > 7 then [tooManyMsg card_name 7] else []
  else if UNLIMITED_CARDS.contains card_name then []
  else if startsWithB (typeLine m) "Basic" then []
  else if quantity > 4 then [tooManyMsg card_name 4] else []

/-- The format-legality rule as amended: a violation iff the status is
not exactly "legal"; a missing or empty status is reported "not found",
a nonempty non-legal status has its underscores replaced by spaces. -/
def legality_spec (fmt card_name : String) (m : CardMetadata) : List String :=
  match m.legalities.lookup fmt with
  | none => [legalityMsg card_name "not found" fmt]
  | some l =>
    if l = "legal" then []
    else if l = "" then [legalityMsg card_name "not found" fmt]
    else [legalityMsg card_name (replaceChar (Char.ofNat 95) (Char.ofNat 32) l) fmt]

/-- The maindeck size violations, as the report-ordering claim words
them: the maindeck size violation comes first. -/
def size_reasons_main (fmt : String) (deck : Deck) : List String :=
  let mc := poolCount deck.maindeck
  if fmt = "commander" then
    if mc ≠ 99 then [commanderMainMsg mc] else []
  else
    if mc < 60 then [mainSizeMsg mc] else []

/-- The sideboard size violations, following the maindeck ones. -/
def size_reasons_side (fmt : String) (deck : Deck) : List String :=
  let sc := poolCount deck.sidedeck
  if fmt = "commander" then
    if sc ≠ 1 then [commanderSideMsg sc] else []
  else
    if sc > 15 then [sideSizeMsg sc] else []

/-- One card's violations as the ordering claim words them: for a failed
fetch the synthetic error message alone; otherwise the format-legality
violation before the quantity violation. -/
def card_reasons (oracle : FetchOracle) (fmt : String) (entry : CardEntry) : List String :=
  match oracle entry.cardname with
  | Except.error e => [errorMsg entry.cardname e]
  | Except.ok m =>
    legality_reasons fmt entry.cardname m
      ++ quantity_reasons entry.cardname entry.quantity m

/-- The report as the ordering claim words it: "Legal in {format}" on an
empty violation list, otherwise the messages joined by newline — size
violations first (maindeck then sideboard), then per-card violations in
deck-iteration order (maindeck entries then sidedeck entries). -/
def report_spec (oracle : FetchOracle) (fmt : String) (deck : Deck) : String :=
  let vs := size_reasons_main fmt deck ++ size_reasons_side fmt deck ++
    ((deck.maindeck ++ deck.sidedeck).map (card_reasons oracle fmt)).flatten
  if vs = [] then s!"Legal in {fmt}" else String.intercalate "\n" vs

/-- The per-entry price contribution the total-price claim asserts:
price × quantity, an absent price contributing 0. -/
def claimed_entry_price (oracle : String → PlotCard) (e : CardEntry) : ℚ :=
  match (oracle e.cardname).usd with
  | some p => ((pyFloat p).getD 0) * (e.quantity : ℚ)
  | none => 0

/-- The total price the claim asserts: the sum of the per-entry
contributions, rounded to 2 decimal places, with no crash. -/
def claimed_deck_price (oracle : String → PlotCard) (deck : Deck) : ℚ :=
  round2 (((deck.maindeck ++ deck.sidedeck).map (claimed_entry_price oracle)).sum)

/-! ## Concrete fixtures used by witnesses and counterexamples. -/

/-- Metadata of an ordinary modern-legal creature. -/
def wGoodMeta : CardMetadata :=
  { legalities := [("modern", "legal")], type_line := some "Creature" }

/-- An oracle failing on exactly one card name. -/
def badOracle : FetchOracle := fun n =>
  if n = "Misprinted Card" then Except.error "Timeout" else Except.ok wGoodMeta

/-- A deck mixing fetchable and failing cards. -/
def wMixedDeck : Deck :=
  ⟨[⟨"Good Card", 4⟩, ⟨"Misprinted Card", 4⟩], [⟨"Other Card", 2⟩]⟩

/-- A size-conforming commander deck. -/
def wCommanderDeck : Deck := ⟨[⟨"Deck Filler", 99⟩], [⟨"The General", 1⟩]⟩

/-- The plotter oracle of the total-price example: one card priced
$1.50, every other card without a usd price. -/
def exPlotOracle : String → PlotCard := fun n =>
  if n = "Priced Card" then { type_line := some "Creature", usd := some "1.50" }
  else { type_line := some "Creature", usd := none }

/-- The deck of the total-price example: $1.50 at quantity 2 plus an
absent price at quantity 3. -/
def exPlotDeck : Deck := ⟨[⟨"Priced Card", 2⟩, ⟨"Unpriced Card", 3⟩], []⟩

/-! ## Theorems -/

/-- The special-limit lookup is a plain comparison with "Seven Dwarves". -/
lemma special_limit_lookup (card_name : String) :
    SPECIAL_LIMIT_CARDS.lookup card_name =
      if card_name = "Seven Dwarves" then some 7 else none := by
  unfold SPECIAL_LIMIT_CARDS
  by_cases h : card_name = "Seven Dwarves"
  · simp [List.lookup, h]
  · simp [List.lookup, h, beq_eq_false_iff_ne.mpr h]

/-- C4: with fetched metadata the quantity rule follows the claimed
precedence — "Seven Dwarves" capped at 7, then the unlimited allowlist,
then basic lands, then exactly one violation naming max 4 iff the
quantity exceeds 4. -/
theorem quantity_rule_precedence (card_name : String) (quantity : Nat) (m : CardMetadata) :
    quantity_reasons card_name quantity m = quantity_spec card_name quantity m := by
  unfold quantity_reasons quantity_spec
  rw [special_limit_lookup]
  by_cases h1 : card_name = "Seven Dwarves"
  · simp [h1]
  · rw [if_neg h1, if_neg h1]
    by_cases h2 : UNLIMITED_CARDS.contains card_name <;>
      by_cases h3 : startsWithB (typeLine m) "Basic" <;>
      by_cases h4 : quantity > 4 <;>
      simp [h2, h3, h4]

/-- C5 counterexample: a present-but-empty legality status is reported
"not found", not as the claim's underscore-replaced status string. -/
theorem legality_empty_status_cex :
    legality_reasons "modern" "Foo" { legalities := [("modern", "")], type_line := none } =
      [legalityMsg "Foo" "not found" "modern"] ∧
    legality_reasons "modern" "Foo" { legalities := [("modern", "")], type_line := none } ≠
      [legalityMsg "Foo" (replaceChar (Char.ofNat 95) (Char.ofNat 32) "") "modern"] :=
  ⟨by decide, by decide⟩

/-- C5 (amended): a format-legality violation is appended iff the status
is not exactly "legal"; a missing or empty status is reported
"not found", and a nonempty non-legal status has every underscore
replaced by a space. -/
theorem legality_rule_amended (fmt card_name : String) (m : CardMetadata) :
    legality_reasons fmt card_name m = legality_spec fmt card_name m := by
  unfold legality_reasons legality_spec
  cases hlk : m.legalities.lookup fmt with
  | none => simp
  | some l =>
    by_cases h1 : l = "legal"
    · simp [h1]
    · by_cases h2 : l = "" <;> simp [h1, h2]

/-- C3: `check_deck_size` appends, for "commander", a violation iff the
maindeck total differs from 99 and one iff the sidedeck total differs
from 1; for every other format a violation iff the maindeck total is
below 60 and one iff the sidedeck total exceeds 15 — the two conditions
independent, so both can fire. -/
theorem check_deck_size_correct (fmt : String) (deck : Deck) :
    (fmt = "commander" →
      check_deck_size fmt deck =
        (if poolCount deck.maindeck = 99 then []
         else [commanderMainMsg (poolCount deck.maindeck)]) ++
        (if poolCount deck.sidedeck = 1 then []
         else [commanderSideMsg (poolCount deck.sidedeck)]))
    ∧ (fmt ≠ "commander" →
      check_deck_size fmt deck =
        (if poolCount deck.maindeck < 60 then [mainSizeMsg (poolCount deck.maindeck)]
         else []) ++
        (if poolCount deck.sidedeck > 15 then [sideSizeMsg (poolCount deck.sidedeck)]
         else [])) := by
  constructor
  · intro h
    simp only [check_deck_size, if_pos h]
    by_cases h1 : poolCount deck.maindeck = 99 <;>
      by_cases h2 : poolCount deck.sidedeck = 1 <;> simp [h1, h2]
  · intro h
    simp only [check_deck_size, if_neg h]

/-- Witness for C3: a size-conforming commander deck gets no size
violation, through both the theorem and direct evaluation. -/
theorem check_deck_size_correct_witness :
    check_deck_size "commander" wCommanderDeck =
      (if poolCount wCommanderDeck.maindeck = 99 then []
       else [commanderMainMsg (poolCount wCommanderDeck.maindeck)]) ++
      (if poolCount wCommanderDeck.sidedeck = 1 then []
       else [commanderSideMsg (poolCount wCommanderDeck.sidedeck)]) ∧
    check_deck_size "commander" wCommanderDeck = [] :=
  ⟨(check_deck_size_correct "commander" wCommanderDeck).1 rfl, by decide⟩

/-- C6: a failed fetch yields exactly the synthetic violation for that
card — its legality and quantity checks are skipped — and the batch
result is the independent concatenation of every card's own check, so
one card's error aborts nothing else. -/
theorem fetch_error_isolated (oracle : FetchOracle) (fmt : String) (deck : Deck)
    (entry : CardEntry) (e : String) (h : oracle entry.cardname = Except.error e) :
    check_card oracle fmt entry = [errorMsg entry.cardname e] ∧
    check_all_cards oracle fmt deck =
      ((deck.maindeck ++ deck.sidedeck).map (check_card oracle fmt)).flatten := by
  constructor
  · simp [check_card, fetch_card_data, h]
  · rfl

/-- Witness for C6: one failing card among good ones records only its
synthetic message while the others complete cleanly. -/
theorem fetch_error_isolated_witness :
    (check_card badOracle "modern" ⟨"Misprinted Card", 4⟩ =
      [errorMsg "Misprinted Card" "Timeout"] ∧
    check_all_cards badOracle "modern" wMixedDeck =
      ((wMixedDeck.maindeck ++ wMixedDeck.sidedeck).map (check_card badOracle "modern")).flatten) ∧
    check_all_cards badOracle "modern" wMixedDeck = [errorMsg "Misprinted Card" "Timeout"] :=
  ⟨fetch_error_isolated badOracle "modern" wMixedDeck ⟨"Misprinted Card", 4⟩ "Timeout" rfl,
   by decide⟩

/-- C1: the report equals the claim's deterministically ordered one —
"Legal in {format}" on no violations, else the messages joined by
newline: size violations (maindeck then sideboard) first, then per-card
violations in deck-iteration order, legality before quantity. -/
theorem run_checks_report_order (oracle : FetchOracle) (fmt : String) (deck : Deck) :
    run_checks oracle fmt deck = report_spec oracle fmt deck := by
  have h1 : check_deck_size fmt deck =
      size_reasons_main fmt deck ++ size_reasons_side fmt deck := by
    by_cases h : fmt = "commander" <;>
      simp [check_deck_size, size_reasons_main, size_reasons_side, h]
  have h2 : check_all_cards oracle fmt deck =
      ((deck.maindeck ++ deck.sidedeck).map (card_reasons oracle fmt)).flatten := by
    unfold check_all_cards
    congr 1
    refine List.map_congr_left ?_
    intro entry _
    unfold check_card card_reasons fetch_card_data
    cases h : oracle entry.cardname <;> simp
  unfold run_checks report_spec
  rw [h1, h2]
  simp [List.isEmpty_iff, List.append_assoc]

/-- The paginator state after `n` placements from a fresh start: the
in-page counter is `n % m`, the page number `n / m + 1`, and pages
`1 .. n / m` have been saved in order. -/
lemma placeMany_fresh (dn : String) (m : Nat) (hm : 1 ≤ m) (n : Nat) :
    placeMany dn m n freshState =
      { card_count := n % m, page_count := n / m + 1,
        saved := (List.range (n / m)).map (fun i => pageName dn (i + 1)) } := by
  induction n with
  | zero => simp [placeMany, freshState]
  | succ n ih =>
    have hm' : 0 < m := hm
    have hd := Nat.div_add_mod n m
    rw [placeMany, ih]
    by_cases hc : n % m + 1 = m
    · have h1 : n + 1 = m * (n / m + 1) := by
        rw [Nat.mul_add, Nat.mul_one]
        linarith
      have hq : (n + 1) / m = n / m + 1 := by
        rw [h1, Nat.mul_div_cancel_left _ hm']
      have hr : (n + 1) % m = 0 := by
        rw [h1, Nat.mul_mod_right]
      simp [placeOne, hc, hq, hr, List.range_succ]
    · have hlt : n % m + 1 < m := by
        have := Nat.mod_lt n hm'
        omega
      have huniq : (n + 1) / m = n / m ∧ (n + 1) % m = n % m + 1 :=
        (Nat.div_mod_unique hm').mpr ⟨by linarith, hlt⟩
      simp [placeOne, hc, huniq.1, huniq.2]

/-- C7: placing `n` images at page capacity `m ≥ 1` saves full pages
named with page numbers starting at 1, increments the page number and
resets the counter at every flush, and saves the trailing buffer as a
final page iff it holds more than one placed image. -/
theorem plot_pagination (dn : String) (m n : Nat) (hm : 1 ≤ m) :
    plotPages dn m n =
      { card_count := n % m, page_count := n / m + 1,
        saved := (List.range (n / m)).map (fun i => pageName dn (i + 1)) ++
          (if n % m > 1 then [pageName dn (n / m + 1)] else []) } := by
  unfold plotPages finalFlush
  rw [placeMany_fresh dn m hm n]
  by_cases hc : n % m > 1 <;> simp [hc]

/-- Witness for C7: 10 placements at capacity 4 save pages 1 and 2 and a
trailing page 3 holding two images. -/
theorem plot_pagination_witness :
    (1 ≤ 4) ∧ plotPages "deck" 4 10 =
      { card_count := 10 % 4, page_count := 10 / 4 + 1,
        saved := (List.range (10 / 4)).map (fun i => pageName "deck" (i + 1)) ++
          (if 10 % 4 > 1 then [pageName "deck" (10 / 4 + 1)] else []) } :=
  ⟨by decide, plot_pagination "deck" 4 10 (by decide)⟩

/-- Python floor division by a positive literal is the rational floor. -/
lemma fdiv_eq_rat_floor (a : ℤ) (d : ℕ) (hd : 0 < d) :
    a.fdiv (d : ℤ) = ⌊(a : ℚ) / (d : ℚ)⌋ := by
  rw [Int.fdiv_eq_ediv _ (by positivity)]
  exact (Rat.floor_intCast_div_natCast a d).symm

/-- C8: at gap 0 the card size is 2.5×3.5 inches at 300 DPI (750×1050
px), columns and rows are the floors of the usable width and height over
the card dimensions, capacity is their product, and the i-th placement
lands at x from `i div columns` times the card width and y from
`i mod columns` times the card height — the axis swap exactly as coded. -/
theorem layout_formula (w h i cpr : ℤ) (hcpr : cpr ≠ 0) :
    (MTG_CARD_SIZE.1 : ℚ) = 2.5 * PPI ∧ (MTG_CARD_SIZE.2 : ℚ) = 3.5 * PPI ∧
    cards_per_row w 0 = ⌊((w : ℚ) - 100) / 750⌋ ∧
    cards_per_col h 0 = ⌊((h : ℚ) - 100) / 1050⌋ ∧
    max_cards w h 0 = cards_per_row w 0 * cards_per_col h 0 ∧
    placementCoord i cpr 0 =
      Except.ok (50 + i.fdiv cpr * 750, 50 + i.fmod cpr * 1050) := by
  refine ⟨by norm_num [MTG_CARD_SIZE, PPI], by norm_num [MTG_CARD_SIZE, PPI], ?_, ?_, rfl, ?_⟩
  · unfold cards_per_row
    rw [show MTG_CARD_SIZE.1 + 0 = ((750 : ℕ) : ℤ) from rfl,
      fdiv_eq_rat_floor (w - 100) 750 (by norm_num)]
    congr 1
    push_cast
    ring
  · unfold cards_per_col
    rw [show MTG_CARD_SIZE.2 + 0 = ((1050 : ℕ) : ℤ) from rfl,
      fdiv_eq_rat_floor (h - 100) 1050 (by norm_num)]
    congr 1
    push_cast
    ring
  · unfold placementCoord
    rw [if_neg hcpr]
    norm_num [MTG_CARD_SIZE]

/-- Witness for C8: the layout facts at a 2000×2500 page, placement 5 in
2 columns. -/
theorem layout_formula_witness :
    ((2 : ℤ) ≠ 0) ∧
    ((MTG_CARD_SIZE.1 : ℚ) = 2.5 * PPI ∧ (MTG_CARD_SIZE.2 : ℚ) = 3.5 * PPI ∧
    cards_per_row 2000 0 = ⌊((2000 : ℚ) - 100) / 750⌋ ∧
    cards_per_col 2500 0 = ⌊((2500 : ℚ) - 100) / 1050⌋ ∧
    max_cards 2000 2500 0 = cards_per_row 2000 0 * cards_per_col 2500 0 ∧
    placementCoord 5 2 0 =
      Except.ok (50 + Int.fdiv 5 2 * 750, 50 + Int.fmod 5 2 * 1050)) :=
  ⟨by decide, layout_formula 2000 2500 5 2 (by decide)⟩

/-- C10 counterexample: at width 50 the usable width (−50) is smaller
than the card width, yet `cards_per_row` is −1, not 0 as the claim
states, and the first placement computes coordinates without raising. -/
theorem cards_per_row_not_zero_cex :
    ((50 : ℤ) - 100 < 750) ∧ cards_per_row 50 0 ≠ 0 ∧
    placementCoord 0 (cards_per_row 50 0) 0 = Except.ok (50, 50) :=
  ⟨by decide, by decide, rfl⟩

/-- C10 (amended): for any width with 0 ≤ width − 100 < 750 at gap 0,
`cards_per_row` is 0 and every placement's coordinate computation raises
ZeroDivisionError — no guard prevents it. -/
theorem zero_columns_division_error (w i : ℤ) (h1 : 100 ≤ w) (h2 : w - 100 < 750) :
    cards_per_row w 0 = 0 ∧
    placementCoord i (cards_per_row w 0) 0 = Except.error ZDIV_ERR := by
  have hz : cards_per_row w 0 = 0 := by
    unfold cards_per_row
    rw [show MTG_CARD_SIZE.1 + 0 = (750 : ℤ) from rfl,
      Int.fdiv_eq_ediv _ (by norm_num)]
    exact Int.ediv_eq_zero_of_lt (by omega) (by omega)
  exact ⟨hz, by rw [hz]; rfl⟩

/-- Witness for C10: a 400-pixel-wide page has zero columns and the
first placement fails. -/
theorem zero_columns_division_error_witness :
    cards_per_row 400 0 = 0 ∧
    placementCoord 0 (cards_per_row 400 0) 0 = Except.error ZDIV_ERR :=
  zero_columns_division_error 400 0 (by decide) (by decide)

/-- C2 (code bug): on the spec's own price example — $1.50 at quantity 2
plus an absent price at quantity 3 — the render path raises TypeError at
the debug print multiplying the absent (None) price, instead of
returning the claimed total of 3.00, which the claimed accumulation
semantics produces. -/
theorem plot_price_absent_crash :
    plot_deck_price exPlotOracle false exPlotDeck = Except.error TYPE_ERR ∧
    claimed_deck_price exPlotOracle exPlotDeck = 3 := by
  constructor
  · rfl
  · have d1 : digitsToNat ['1'] = 1 := by decide
    have d2 : digitsToNat ['5', '0'] = 50 := by decide
    have h1 : pyFloat "1.50" = some ((3 : ℚ) / 2) := by
      show some ((digitsToNat ['1'] : ℚ) +
        (digitsToNat ['5', '0'] : ℚ) / (10 : ℚ) ^ (['5', '0'] : List Char).length) = _
      rw [d1, d2]
      norm_num
    have o1 : exPlotOracle "Priced Card" =
        { type_line := some "Creature", usd := some "1.50" } := by decide
    have o2 : exPlotOracle "Unpriced Card" =
        { type_line := some "Creature", usd := none } := by decide
    have h2 : ((exPlotDeck.maindeck ++ exPlotDeck.sidedeck).map
        (claimed_entry_price exPlotOracle)).sum = 3 := by
      show (claimed_entry_price exPlotOracle ⟨"Priced Card", 2⟩ +
        (claimed_entry_price exPlotOracle ⟨"Unpriced Card", 3⟩ + 0)) = 3
      unfold claimed_entry_price
      rw [o1, o2]
      simp [h1]
    unfold claimed_deck_price
    rw [h2]
    unfold round2
    rw [(by norm_num : (3 : ℚ) * 100 = ((300 : ℤ) : ℚ)), round_intCast]
    norm_num

end MTG
